import Mathlib

/-!
Shallow embedding of the DLMM CPI instruction layer of `cpi-examples`
(`programs/cpi-example/src/instructions/dlmm_cpi/`): the four position
lifecycle instructions `add_liquidity_one_side`, `remove_liquidity`,
`remove_all_liquidity` and `close_position`.

Each Anchor instruction is embedded as the derived account validation
(`try_accounts`, generated from the `#[derive(Accounts)]` struct: a
writability check for every `#[account(mut)]` field, a signature check for
the `Signer` field, and an address equality check for
`#[account(address = dlmm::ID)]`, in field order) followed by the handler
body from the source, which packages the accounts and parameters and hands
off to the external DLMM settlement engine by CPI.  The hand-off itself is
modelled as the value `CpiHandOff` carrying the invoked program id, the
forwarded account metas and the forwarded instruction arguments; the
settlement engine's own behaviour is outside this repository.
-/

/-- Solana account addresses, abstracted to naturals (32-byte values). -/
abbrev Pubkey := Nat

/-- Account as the instruction receives it: address, runtime flags, and the
account data of type `α` (carried but never deserialized by
`UncheckedAccount`). -/
structure AccountInfo (α : Type) where
  key : Pubkey
  is_signer : Bool
  is_writable : Bool
  data : α
deriving DecidableEq

/-- Modelled from the spec: the Position account data owned by the external
settlement engine (spec section 3) — the pool it belongs to, its owner, its
inclusive bin range and its per-bin liquidity.  The handlers in `src` receive
the position only as an `UncheckedAccount` and never deserialize this data. -/
structure PositionData where
  owner : Pubkey
  lb_pair : Pubkey
  lower_bin_id : Int
  upper_bin_id : Int
  liquidity : List (Int × Nat)
deriving DecidableEq

/-- The external DLMM program id `dlmm::ID`
(base58 `LBUZKhRxPF3XUpBCjp4YzTKgLccjZhTSDM9YuVaPwxo` as a 256-bit value). -/
def dlmm_ID : Pubkey :=
  2222480940325335872388304432163824986101655287136298596997600281027040817340

/-- Errors raised by the Anchor-derived account validation of these four
instructions.  `ConstraintMut` for a non-writable `#[account(mut)]` field,
`AccountNotSigner` for an unsigned `Signer` field, `ConstraintAddress` for
`#[account(address = dlmm::ID)]` failing. -/
inductive AnchorError where
  | ConstraintMut
  | AccountNotSigner
  | ConstraintAddress
deriving DecidableEq

/-- Writability of an optional account: Anchor checks `#[account(mut)]` on an
`Option<UncheckedAccount>` only when the account is present. -/
def optWritable : Option (AccountInfo Unit) → Bool
  | none => true
  | some a => a.is_writable

/-- Result of a successful instruction at this layer: the CPI hand-off to the
settlement engine, carrying the program id the CPI invokes, the account metas
`A` and the forwarded instruction arguments `π`. -/
structure CpiHandOff (A : Type) (π : Type) where
  program : Pubkey
  accounts : A
  params : π
deriving DecidableEq

/-- Field `dlmm::types::BinLiquidityDistributionByWeight`: a bin id (i32) and
a relative weight (u16). -/
structure BinLiquidityDistributionByWeight where
  bin_id : Int
  weight : Nat
deriving DecidableEq

/-- Field `dlmm::types::LiquidityOneSideParameter` as built in the handler:
amount (u64), active id (i32), slippage bound (i32), weighted distribution. -/
structure LiquidityOneSideParameter where
  amount : Nat
  active_id : Int
  max_active_bin_slippage : Int
  bin_liquidity_dist : List BinLiquidityDistributionByWeight
deriving DecidableEq

/-- Field `dlmm::types::BinLiquidityReduction`: a bin id (i32) and basis
points to remove (u16). -/
structure BinLiquidityReduction where
  bin_id : Int
  bps_to_remove : Nat
deriving DecidableEq

/-- Accounts of the `DlmmAddLiquidityOneSide` instruction, in source field
order. -/
structure DlmmAddLiquidityOneSide where
  position : AccountInfo PositionData
  lb_pair : AccountInfo Unit
  bin_array_bitmap_extension : Option (AccountInfo Unit)
  user_token : AccountInfo Unit
  reserve : AccountInfo Unit
  token_mint : AccountInfo Unit
  bin_array_lower : AccountInfo Unit
  bin_array_upper : AccountInfo Unit
  sender : AccountInfo Unit
  dlmm_program : AccountInfo Unit
  event_authority : AccountInfo Unit
  token_program : AccountInfo Unit
deriving DecidableEq

/-- Anchor-derived account validation for `DlmmAddLiquidityOneSide`:
`#[account(mut)]` on position, lb_pair, bin_array_bitmap_extension,
user_token, reserve, bin_array_lower, bin_array_upper; `Signer` on sender;
`#[account(address = dlmm::ID)]` on dlmm_program; checked in field order. -/
def DlmmAddLiquidityOneSide.try_accounts
    (a : DlmmAddLiquidityOneSide) : Except AnchorError Unit :=
  if !a.position.is_writable then .error .ConstraintMut
  else if !a.lb_pair.is_writable then .error .ConstraintMut
  else if !optWritable a.bin_array_bitmap_extension then .error .ConstraintMut
  else if !a.user_token.is_writable then .error .ConstraintMut
  else if !a.reserve.is_writable then .error .ConstraintMut
  else if !a.bin_array_lower.is_writable then .error .ConstraintMut
  else if !a.bin_array_upper.is_writable then .error .ConstraintMut
  else if !a.sender.is_signer then .error .AccountNotSigner
  else if a.dlmm_program.key = dlmm_ID then .ok ()
  else .error .ConstraintAddress

/-- Account metas `dlmm::cpi::accounts::AddLiquidityOneSide` forwarded by the
CPI, in source field order. -/
structure AddLiquidityOneSide where
  position : Pubkey
  lb_pair : Pubkey
  bin_array_bitmap_extension : Option Pubkey
  user_token : Pubkey
  reserve : Pubkey
  token_mint : Pubkey
  bin_array_lower : Pubkey
  bin_array_upper : Pubkey
  sender : Pubkey
  token_program : Pubkey
  event_authority : Pubkey
  program : Pubkey
deriving DecidableEq

/-- The `let accounts = dlmm::cpi::accounts::AddLiquidityOneSide { .. }`
construction in the handler body. -/
def AddLiquidityOneSide.of (ctx : DlmmAddLiquidityOneSide) :
    AddLiquidityOneSide where
  position := ctx.position.key
  lb_pair := ctx.lb_pair.key
  bin_array_bitmap_extension := ctx.bin_array_bitmap_extension.map (·.key)
  user_token := ctx.user_token.key
  reserve := ctx.reserve.key
  token_mint := ctx.token_mint.key
  bin_array_lower := ctx.bin_array_lower.key
  bin_array_upper := ctx.bin_array_upper.key
  sender := ctx.sender.key
  token_program := ctx.token_program.key
  event_authority := ctx.event_authority.key
  program := ctx.dlmm_program.key

/-- The full `add_liquidity_one_side` instruction at this layer: Anchor
account validation, then the handler body
`handle_dlmm_add_liquidity_one_side`, which builds the CPI accounts and the
`LiquidityOneSideParameter` from the caller's arguments unchanged and invokes
`dlmm::cpi::add_liquidity_one_side`. -/
def handle_dlmm_add_liquidity_one_side (ctx : DlmmAddLiquidityOneSide)
    (amount : Nat) (active_id : Int) (max_active_bin_slippage : Int)
    (bin_liquidity_dist : List BinLiquidityDistributionByWeight) :
    Except AnchorError (CpiHandOff AddLiquidityOneSide LiquidityOneSideParameter) :=
  match DlmmAddLiquidityOneSide.try_accounts ctx with
  | .error e => .error e
  | .ok _ =>
    .ok { program := ctx.dlmm_program.key
          accounts := AddLiquidityOneSide.of ctx
          params := { amount := amount
                      active_id := active_id
                      max_active_bin_slippage := max_active_bin_slippage
                      bin_liquidity_dist := bin_liquidity_dist } }

/-- Modelled from the spec: `BinArrayAddressResolver.resolve` — the bin-array
shard index for a bin id, floor division by 70 (floor toward negative
infinity).  In `src` this addressing exists only as the PDA documentation on
the `bin_array_lower` / `bin_array_upper` account declarations
(`floor(bin_id / 70)`); no Rust implementation of the resolver is in `src`. -/
def resolve (bin_id : Int) : Int := Int.fdiv bin_id 70

/-- Spec wording, for comparison with the code: side-X rule — every bin id of
the distribution satisfies `active_id < bin_id ≤ upper_bin_id`. -/
def spec_side_rule_X (active_id upper_bin_id : Int)
    (dist : List BinLiquidityDistributionByWeight) : Bool :=
  dist.all fun d => decide (active_id < d.bin_id) && decide (d.bin_id ≤ upper_bin_id)

/-- Spec wording, for comparison with the code: side-Y rule — every bin id of
the distribution satisfies `lower_bin_id ≤ bin_id ≤ active_id`. -/
def spec_side_rule_Y (active_id lower_bin_id : Int)
    (dist : List BinLiquidityDistributionByWeight) : Bool :=
  dist.all fun d => decide (lower_bin_id ≤ d.bin_id) && decide (d.bin_id ≤ active_id)

/-- Spec wording, for comparison with the code: a weighted distribution is
admissible only if non-empty and free of duplicate bin ids. -/
def spec_dist_well_formed (dist : List BinLiquidityDistributionByWeight) : Bool :=
  !dist.isEmpty && (dist.map (·.bin_id)).Nodup

/-- Spec wording, for comparison with the code: every reduction entry has
`bps_to_remove ≤ 10000`, a bin id inside the position's range, and no bin id
repeats. -/
def spec_reduction_ok (lower_bin_id upper_bin_id : Int)
    (table : List BinLiquidityReduction) : Bool :=
  table.all (fun r => decide (r.bps_to_remove ≤ 10000) &&
      decide (lower_bin_id ≤ r.bin_id) && decide (r.bin_id ≤ upper_bin_id)) &&
    (table.map (·.bin_id)).Nodup

/-- Accounts of the `DlmmRemoveLiquidity` instruction, in source field
order. -/
structure DlmmRemoveLiquidity where
  position : AccountInfo PositionData
  lb_pair : AccountInfo Unit
  bin_array_bitmap_extension : Option (AccountInfo Unit)
  user_token_x : AccountInfo Unit
  user_token_y : AccountInfo Unit
  reserve_x : AccountInfo Unit
  reserve_y : AccountInfo Unit
  token_x_mint : AccountInfo Unit
  token_y_mint : AccountInfo Unit
  bin_array_lower : AccountInfo Unit
  bin_array_upper : AccountInfo Unit
  sender : AccountInfo Unit
  dlmm_program : AccountInfo Unit
  event_authority : AccountInfo Unit
  token_x_program : AccountInfo Unit
  token_y_program : AccountInfo Unit
deriving DecidableEq

/-- Anchor-derived account validation for `DlmmRemoveLiquidity`, in field
order. -/
def DlmmRemoveLiquidity.try_accounts
    (a : DlmmRemoveLiquidity) : Except AnchorError Unit :=
  if !a.position.is_writable then .error .ConstraintMut
  else if !a.lb_pair.is_writable then .error .ConstraintMut
  else if !optWritable a.bin_array_bitmap_extension then .error .ConstraintMut
  else if !a.user_token_x.is_writable then .error .ConstraintMut
  else if !a.user_token_y.is_writable then .error .ConstraintMut
  else if !a.reserve_x.is_writable then .error .ConstraintMut
  else if !a.reserve_y.is_writable then .error .ConstraintMut
  else if !a.bin_array_lower.is_writable then .error .ConstraintMut
  else if !a.bin_array_upper.is_writable then .error .ConstraintMut
  else if !a.sender.is_signer then .error .AccountNotSigner
  else if a.dlmm_program.key = dlmm_ID then .ok ()
  else .error .ConstraintAddress

/-- Account metas `dlmm::cpi::accounts::RemoveLiquidity` forwarded by the
CPI, in source field order. -/
structure RemoveLiquidity where
  position : Pubkey
  lb_pair : Pubkey
  bin_array_bitmap_extension : Option Pubkey
  user_token_x : Pubkey
  user_token_y : Pubkey
  reserve_x : Pubkey
  reserve_y : Pubkey
  token_x_mint : Pubkey
  token_y_mint : Pubkey
  bin_array_lower : Pubkey
  bin_array_upper : Pubkey
  sender : Pubkey
  token_x_program : Pubkey
  token_y_program : Pubkey
  event_authority : Pubkey
  program : Pubkey
deriving DecidableEq

/-- The `let accounts = dlmm::cpi::accounts::RemoveLiquidity { .. }`
construction in the handler body. -/
def RemoveLiquidity.of (ctx : DlmmRemoveLiquidity) : RemoveLiquidity where
  position := ctx.position.key
  lb_pair := ctx.lb_pair.key
  bin_array_bitmap_extension := ctx.bin_array_bitmap_extension.map (·.key)
  user_token_x := ctx.user_token_x.key
  user_token_y := ctx.user_token_y.key
  reserve_x := ctx.reserve_x.key
  reserve_y := ctx.reserve_y.key
  token_x_mint := ctx.token_x_mint.key
  token_y_mint := ctx.token_y_mint.key
  bin_array_lower := ctx.bin_array_lower.key
  bin_array_upper := ctx.bin_array_upper.key
  sender := ctx.sender.key
  token_x_program := ctx.token_x_program.key
  token_y_program := ctx.token_y_program.key
  event_authority := ctx.event_authority.key
  program := ctx.dlmm_program.key

/-- The full `remove_liquidity` instruction at this layer: Anchor account
validation, then the handler body `handle_dlmm_remove_liquidity`, which
builds the CPI accounts and forwards the caller's `bin_liquidity_removal`
list unchanged to `dlmm::cpi::remove_liquidity`. -/
def handle_dlmm_remove_liquidity (ctx : DlmmRemoveLiquidity)
    (bin_liquidity_removal : List BinLiquidityReduction) :
    Except AnchorError (CpiHandOff RemoveLiquidity (List BinLiquidityReduction)) :=
  match DlmmRemoveLiquidity.try_accounts ctx with
  | .error e => .error e
  | .ok _ =>
    .ok { program := ctx.dlmm_program.key
          accounts := RemoveLiquidity.of ctx
          params := bin_liquidity_removal }

/-- Accounts of the `DlmmRemoveAllLiquidity` instruction, in source field
order (identical account list to `DlmmRemoveLiquidity`). -/
structure DlmmRemoveAllLiquidity where
  position : AccountInfo PositionData
  lb_pair : AccountInfo Unit
  bin_array_bitmap_extension : Option (AccountInfo Unit)
  user_token_x : AccountInfo Unit
  user_token_y : AccountInfo Unit
  reserve_x : AccountInfo Unit
  reserve_y : AccountInfo Unit
  token_x_mint : AccountInfo Unit
  token_y_mint : AccountInfo Unit
  bin_array_lower : AccountInfo Unit
  bin_array_upper : AccountInfo Unit
  sender : AccountInfo Unit
  dlmm_program : AccountInfo Unit
  event_authority : AccountInfo Unit
  token_x_program : AccountInfo Unit
  token_y_program : AccountInfo Unit
deriving DecidableEq

/-- Anchor-derived account validation for `DlmmRemoveAllLiquidity`, in field
order. -/
def DlmmRemoveAllLiquidity.try_accounts
    (a : DlmmRemoveAllLiquidity) : Except AnchorError Unit :=
  if !a.position.is_writable then .error .ConstraintMut
  else if !a.lb_pair.is_writable then .error .ConstraintMut
  else if !optWritable a.bin_array_bitmap_extension then .error .ConstraintMut
  else if !a.user_token_x.is_writable then .error .ConstraintMut
  else if !a.user_token_y.is_writable then .error .ConstraintMut
  else if !a.reserve_x.is_writable then .error .ConstraintMut
  else if !a.reserve_y.is_writable then .error .ConstraintMut
  else if !a.bin_array_lower.is_writable then .error .ConstraintMut
  else if !a.bin_array_upper.is_writable then .error .ConstraintMut
  else if !a.sender.is_signer then .error .AccountNotSigner
  else if a.dlmm_program.key = dlmm_ID then .ok ()
  else .error .ConstraintAddress

/-- Account metas `dlmm::cpi::accounts::RemoveAllLiquidity` forwarded by the
CPI, in source field order. -/
structure RemoveAllLiquidity where
  position : Pubkey
  lb_pair : Pubkey
  bin_array_bitmap_extension : Option Pubkey
  user_token_x : Pubkey
  user_token_y : Pubkey
  reserve_x : Pubkey
  reserve_y : Pubkey
  token_x_mint : Pubkey
  token_y_mint : Pubkey
  bin_array_lower : Pubkey
  bin_array_upper : Pubkey
  sender : Pubkey
  token_x_program : Pubkey
  token_y_program : Pubkey
  event_authority : Pubkey
  program : Pubkey
deriving DecidableEq

/-- The `let accounts = dlmm::cpi::accounts::RemoveAllLiquidity { .. }`
construction in the handler body. -/
def RemoveAllLiquidity.of (ctx : DlmmRemoveAllLiquidity) :
    RemoveAllLiquidity where
  position := ctx.position.key
  lb_pair := ctx.lb_pair.key
  bin_array_bitmap_extension := ctx.bin_array_bitmap_extension.map (·.key)
  user_token_x := ctx.user_token_x.key
  user_token_y := ctx.user_token_y.key
  reserve_x := ctx.reserve_x.key
  reserve_y := ctx.reserve_y.key
  token_x_mint := ctx.token_x_mint.key
  token_y_mint := ctx.token_y_mint.key
  bin_array_lower := ctx.bin_array_lower.key
  bin_array_upper := ctx.bin_array_upper.key
  sender := ctx.sender.key
  token_x_program := ctx.token_x_program.key
  token_y_program := ctx.token_y_program.key
  event_authority := ctx.event_authority.key
  program := ctx.dlmm_program.key

/-- The full `remove_all_liquidity` instruction at this layer: Anchor account
validation, then the handler body `handle_dlmm_remove_all_liquidity`, which
takes no instruction arguments (no bin table) and invokes
`dlmm::cpi::remove_all_liquidity`. -/
def handle_dlmm_remove_all_liquidity (ctx : DlmmRemoveAllLiquidity) :
    Except AnchorError (CpiHandOff RemoveAllLiquidity Unit) :=
  match DlmmRemoveAllLiquidity.try_accounts ctx with
  | .error e => .error e
  | .ok _ =>
    .ok { program := ctx.dlmm_program.key
          accounts := RemoveAllLiquidity.of ctx
          params := () }

/-- Accounts of the `DlmmClosePosition` instruction, in source field order. -/
structure DlmmClosePosition where
  position : AccountInfo PositionData
  lb_pair : AccountInfo Unit
  bin_array_lower : AccountInfo Unit
  bin_array_upper : AccountInfo Unit
  sender : AccountInfo Unit
  rent_receiver : AccountInfo Unit
  dlmm_program : AccountInfo Unit
  event_authority : AccountInfo Unit
deriving DecidableEq

/-- Anchor-derived account validation for `DlmmClosePosition`, in field
order. -/
def DlmmClosePosition.try_accounts
    (a : DlmmClosePosition) : Except AnchorError Unit :=
  if !a.position.is_writable then .error .ConstraintMut
  else if !a.lb_pair.is_writable then .error .ConstraintMut
  else if !a.bin_array_lower.is_writable then .error .ConstraintMut
  else if !a.bin_array_upper.is_writable then .error .ConstraintMut
  else if !a.sender.is_signer then .error .AccountNotSigner
  else if !a.rent_receiver.is_writable then .error .ConstraintMut
  else if a.dlmm_program.key = dlmm_ID then .ok ()
  else .error .ConstraintAddress

/-- Account metas `dlmm::cpi::accounts::ClosePosition` forwarded by the CPI,
in source field order. -/
structure ClosePosition where
  position : Pubkey
  lb_pair : Pubkey
  bin_array_lower : Pubkey
  bin_array_upper : Pubkey
  sender : Pubkey
  rent_receiver : Pubkey
  event_authority : Pubkey
  program : Pubkey
deriving DecidableEq

/-- The `let accounts = dlmm::cpi::accounts::ClosePosition { .. }`
construction in the handler body. -/
def ClosePosition.of (ctx : DlmmClosePosition) : ClosePosition where
  position := ctx.position.key
  lb_pair := ctx.lb_pair.key
  bin_array_lower := ctx.bin_array_lower.key
  bin_array_upper := ctx.bin_array_upper.key
  sender := ctx.sender.key
  rent_receiver := ctx.rent_receiver.key
  event_authority := ctx.event_authority.key
  program := ctx.dlmm_program.key

/-- The full `close_position` instruction at this layer: Anchor account
validation, then the handler body `handle_dlmm_close_position`, which takes
no instruction arguments and invokes `dlmm::cpi::close_position`. -/
def handle_dlmm_close_position (ctx : DlmmClosePosition) :
    Except AnchorError (CpiHandOff ClosePosition Unit) :=
  match DlmmClosePosition.try_accounts ctx with
  | .error e => .error e
  | .ok _ =>
    .ok { program := ctx.dlmm_program.key
          accounts := ClosePosition.of ctx
          params := () }

/-- Writability and signature flags of `DlmmAddLiquidityOneSide` (everything
`try_accounts` checks other than the `dlmm_program` address). -/
def add_flags_ok (a : DlmmAddLiquidityOneSide) : Bool :=
  a.position.is_writable && a.lb_pair.is_writable &&
    optWritable a.bin_array_bitmap_extension && a.user_token.is_writable &&
    a.reserve.is_writable && a.bin_array_lower.is_writable &&
    a.bin_array_upper.is_writable && a.sender.is_signer

/-- Writability and signature flags of `DlmmRemoveLiquidity`. -/
def remove_flags_ok (a : DlmmRemoveLiquidity) : Bool :=
  a.position.is_writable && a.lb_pair.is_writable &&
    optWritable a.bin_array_bitmap_extension && a.user_token_x.is_writable &&
    a.user_token_y.is_writable && a.reserve_x.is_writable &&
    a.reserve_y.is_writable && a.bin_array_lower.is_writable &&
    a.bin_array_upper.is_writable && a.sender.is_signer

/-- Writability and signature flags of `DlmmRemoveAllLiquidity`. -/
def remove_all_flags_ok (a : DlmmRemoveAllLiquidity) : Bool :=
  a.position.is_writable && a.lb_pair.is_writable &&
    optWritable a.bin_array_bitmap_extension && a.user_token_x.is_writable &&
    a.user_token_y.is_writable && a.reserve_x.is_writable &&
    a.reserve_y.is_writable && a.bin_array_lower.is_writable &&
    a.bin_array_upper.is_writable && a.sender.is_signer

/-- Writability and signature flags of `DlmmClosePosition`. -/
def close_flags_ok (a : DlmmClosePosition) : Bool :=
  a.position.is_writable && a.lb_pair.is_writable &&
    a.bin_array_lower.is_writable && a.bin_array_upper.is_writable &&
    a.sender.is_signer && a.rent_receiver.is_writable

theorem ite_err_ok_iff {c : Prop} [Decidable c] {e : AnchorError}
    {rest : Except AnchorError Unit} :
    ((if c then Except.error e else rest) = Except.ok ()) ↔ (¬ c ∧ rest = Except.ok ()) := by
  split <;> simp_all

theorem ite_ok_err_iff {c : Prop} [Decidable c] {e : AnchorError} :
    ((if c then Except.ok () else Except.error e) = Except.ok ()) ↔ c := by
  split <;> simp_all

theorem add_try_accounts_ok_iff (a : DlmmAddLiquidityOneSide) :
    a.try_accounts = .ok () ↔ (add_flags_ok a = true ∧ a.dlmm_program.key = dlmm_ID) := by
  unfold DlmmAddLiquidityOneSide.try_accounts add_flags_ok
  rw [ite_err_ok_iff, ite_err_ok_iff, ite_err_ok_iff, ite_err_ok_iff, ite_err_ok_iff,
    ite_err_ok_iff, ite_err_ok_iff, ite_err_ok_iff, ite_ok_err_iff]
  simp [Bool.not_eq_true', Bool.and_eq_true, and_assoc]

theorem remove_try_accounts_ok_iff (a : DlmmRemoveLiquidity) :
    a.try_accounts = .ok () ↔ (remove_flags_ok a = true ∧ a.dlmm_program.key = dlmm_ID) := by
  unfold DlmmRemoveLiquidity.try_accounts remove_flags_ok
  rw [ite_err_ok_iff, ite_err_ok_iff, ite_err_ok_iff, ite_err_ok_iff, ite_err_ok_iff,
    ite_err_ok_iff, ite_err_ok_iff, ite_err_ok_iff, ite_err_ok_iff, ite_err_ok_iff,
    ite_ok_err_iff]
  simp [Bool.not_eq_true', Bool.and_eq_true, and_assoc]

theorem remove_all_try_accounts_ok_iff (a : DlmmRemoveAllLiquidity) :
    a.try_accounts = .ok () ↔ (remove_all_flags_ok a = true ∧ a.dlmm_program.key = dlmm_ID) := by
  unfold DlmmRemoveAllLiquidity.try_accounts remove_all_flags_ok
  rw [ite_err_ok_iff, ite_err_ok_iff, ite_err_ok_iff, ite_err_ok_iff, ite_err_ok_iff,
    ite_err_ok_iff, ite_err_ok_iff, ite_err_ok_iff, ite_err_ok_iff, ite_err_ok_iff,
    ite_ok_err_iff]
  simp [Bool.not_eq_true', Bool.and_eq_true, and_assoc]

theorem close_try_accounts_ok_iff (a : DlmmClosePosition) :
    a.try_accounts = .ok () ↔ (close_flags_ok a = true ∧ a.dlmm_program.key = dlmm_ID) := by
  unfold DlmmClosePosition.try_accounts close_flags_ok
  rw [ite_err_ok_iff, ite_err_ok_iff, ite_err_ok_iff, ite_err_ok_iff, ite_err_ok_iff,
    ite_err_ok_iff, ite_ok_err_iff]
  simp [Bool.not_eq_true', Bool.and_eq_true, and_assoc]

theorem handle_add_of_try_ok (ctx : DlmmAddLiquidityOneSide) (amount : Nat)
    (active_id max_active_bin_slippage : Int)
    (dist : List BinLiquidityDistributionByWeight)
    (h : ctx.try_accounts = .ok ()) :
    handle_dlmm_add_liquidity_one_side ctx amount active_id
        max_active_bin_slippage dist =
      .ok { program := ctx.dlmm_program.key
            accounts := AddLiquidityOneSide.of ctx
            params := { amount := amount
                        active_id := active_id
                        max_active_bin_slippage := max_active_bin_slippage
                        bin_liquidity_dist := dist } } := by
  unfold handle_dlmm_add_liquidity_one_side
  rw [h]

theorem handle_remove_of_try_ok (ctx : DlmmRemoveLiquidity)
    (removal : List BinLiquidityReduction)
    (h : ctx.try_accounts = .ok ()) :
    handle_dlmm_remove_liquidity ctx removal =
      .ok { program := ctx.dlmm_program.key
            accounts := RemoveLiquidity.of ctx
            params := removal } := by
  unfold handle_dlmm_remove_liquidity
  rw [h]

theorem handle_remove_all_of_try_ok (ctx : DlmmRemoveAllLiquidity)
    (h : ctx.try_accounts = .ok ()) :
    handle_dlmm_remove_all_liquidity ctx =
      .ok { program := ctx.dlmm_program.key
            accounts := RemoveAllLiquidity.of ctx
            params := () } := by
  unfold handle_dlmm_remove_all_liquidity
  rw [h]

theorem handle_close_of_try_ok (ctx : DlmmClosePosition)
    (h : ctx.try_accounts = .ok ()) :
    handle_dlmm_close_position ctx =
      .ok { program := ctx.dlmm_program.key
            accounts := ClosePosition.of ctx
            params := () } := by
  unfold handle_dlmm_close_position
  rw [h]

theorem handle_add_ok_iff_try (ctx : DlmmAddLiquidityOneSide) (amount : Nat)
    (active_id max_active_bin_slippage : Int)
    (dist : List BinLiquidityDistributionByWeight) :
    (∃ r, handle_dlmm_add_liquidity_one_side ctx amount active_id
        max_active_bin_slippage dist = .ok r) ↔ ctx.try_accounts = .ok () := by
  unfold handle_dlmm_add_liquidity_one_side
  cases h : DlmmAddLiquidityOneSide.try_accounts ctx with
  | error e => simp [h]
  | ok u => cases u; simp [h]

theorem handle_remove_ok_iff_try (ctx : DlmmRemoveLiquidity)
    (removal : List BinLiquidityReduction) :
    (∃ r, handle_dlmm_remove_liquidity ctx removal = .ok r) ↔
      ctx.try_accounts = .ok () := by
  unfold handle_dlmm_remove_liquidity
  cases h : DlmmRemoveLiquidity.try_accounts ctx with
  | error e => simp [h]
  | ok u => cases u; simp [h]

theorem handle_remove_all_ok_iff_try (ctx : DlmmRemoveAllLiquidity) :
    (∃ r, handle_dlmm_remove_all_liquidity ctx = .ok r) ↔
      ctx.try_accounts = .ok () := by
  unfold handle_dlmm_remove_all_liquidity
  cases h : DlmmRemoveAllLiquidity.try_accounts ctx with
  | error e => simp [h]
  | ok u => cases u; simp [h]

theorem handle_close_ok_iff_try (ctx : DlmmClosePosition) :
    (∃ r, handle_dlmm_close_position ctx = .ok r) ↔
      ctx.try_accounts = .ok () := by
  unfold handle_dlmm_close_position
  cases h : DlmmClosePosition.try_accounts ctx with
  | error e => simp [h]
  | ok u => cases u; simp [h]

/-- Writable non-signer account carrying no data. -/
def acctW (k : Pubkey) : AccountInfo Unit := ⟨k, false, true, ()⟩

/-- Read-only non-signer account carrying no data. -/
def acctRO (k : Pubkey) : AccountInfo Unit := ⟨k, false, false, ()⟩

/-- Read-only signing account carrying no data. -/
def acctSigner (k : Pubkey) : AccountInfo Unit := ⟨k, true, false, ()⟩

/-- Concrete position data: pool 2, inclusive bin range [100, 139], some
liquidity in bin 105. -/
def position_100_139 : PositionData :=
  { owner := 8, lb_pair := 2, lower_bin_id := 100, upper_bin_id := 139
    liquidity := [(105, 50)] }

/-- Concrete well-formed account set for `add_liquidity_one_side`: every
`#[account(mut)]` field writable, the sender signing, and `dlmm_program` at
`dlmm::ID`; the position belongs to pool 2 = the supplied `lb_pair`. -/
def add_ctx : DlmmAddLiquidityOneSide :=
  { position := ⟨10, false, true, position_100_139⟩
    lb_pair := acctW 2
    bin_array_bitmap_extension := none
    user_token := acctW 3
    reserve := acctW 4
    token_mint := acctRO 5
    bin_array_lower := acctW 6
    bin_array_upper := acctW 7
    sender := acctSigner 8
    dlmm_program := acctRO dlmm_ID
    event_authority := acctRO 9
    token_program := acctRO 11 }

/-- Concrete well-formed account set for `remove_liquidity`. -/
def remove_ctx : DlmmRemoveLiquidity :=
  { position := ⟨10, false, true, position_100_139⟩
    lb_pair := acctW 2
    bin_array_bitmap_extension := none
    user_token_x := acctW 21
    user_token_y := acctW 22
    reserve_x := acctW 23
    reserve_y := acctW 24
    token_x_mint := acctRO 25
    token_y_mint := acctRO 26
    bin_array_lower := acctW 6
    bin_array_upper := acctW 7
    sender := acctSigner 8
    dlmm_program := acctRO dlmm_ID
    event_authority := acctRO 9
    token_x_program := acctRO 11
    token_y_program := acctRO 12 }

/-- Position data claiming pool 99 — it does not cross-reference the
`lb_pair` account (key 2) supplied alongside it. -/
def position_mismatched : PositionData :=
  { owner := 8, lb_pair := 99, lower_bin_id := 100, upper_bin_id := 139
    liquidity := [(105, 50)] }

/-- Concrete account set for `remove_all_liquidity` whose position data does
not cross-reference the supplied `lb_pair` account. -/
def remove_all_ctx_mismatched : DlmmRemoveAllLiquidity :=
  { position := ⟨10, false, true, position_mismatched⟩
    lb_pair := acctW 2
    bin_array_bitmap_extension := none
    user_token_x := acctW 21
    user_token_y := acctW 22
    reserve_x := acctW 23
    reserve_y := acctW 24
    token_x_mint := acctRO 25
    token_y_mint := acctRO 26
    bin_array_lower := acctW 6
    bin_array_upper := acctW 7
    sender := acctSigner 8
    dlmm_program := acctRO dlmm_ID
    event_authority := acctRO 9
    token_x_program := acctRO 11
    token_y_program := acctRO 12 }

/-- Concrete account set for `close_position` whose position data does not
cross-reference the supplied `lb_pair` account. -/
def close_ctx_mismatched : DlmmClosePosition :=
  { position := ⟨10, false, true, position_mismatched⟩
    lb_pair := acctW 2
    bin_array_lower := acctW 6
    bin_array_upper := acctW 7
    sender := acctSigner 8
    rent_receiver := acctW 13
    dlmm_program := acctRO dlmm_ID
    event_authority := acctRO 9 }

/-- Replacement of the per-bin liquidity recorded in the position account's
data, all keys and flags unchanged: the same call in a different liquidity
state. -/
def DlmmRemoveAllLiquidity.with_liquidity (ctx : DlmmRemoveAllLiquidity)
    (L : List (Int × Nat)) : DlmmRemoveAllLiquidity :=
  { ctx with position :=
      { ctx.position with data := { ctx.position.data with liquidity := L } } }

/-- Replacement of the whole position account data, keys and flags
unchanged. -/
def DlmmRemoveAllLiquidity.with_position_data (ctx : DlmmRemoveAllLiquidity)
    (d : PositionData) : DlmmRemoveAllLiquidity :=
  { ctx with position := { ctx.position with data := d } }

/-- Replacement of the whole position account data, keys and flags
unchanged. -/
def DlmmClosePosition.with_position_data (ctx : DlmmClosePosition)
    (d : PositionData) : DlmmClosePosition :=
  { ctx with position := { ctx.position with data := d } }

/-- C5: for every bin id b, including negative b, the bin-array shard index
is b divided by 70 rounded toward negative infinity: it equals the rational
floor of b/70, it is characterized by 70*s ≤ b < 70*(s+1), and in particular
-1 maps to shard -1 and -75 maps to shard -2. -/
theorem resolve_is_floor_by_70 (b : Int) :
    resolve b = ⌊(b : ℚ) / 70⌋ ∧ 70 * resolve b ≤ b ∧ b < 70 * (resolve b + 1) ∧
      resolve (-1) = -1 ∧ resolve (-75) = -2 := by
  have he : resolve b = b / 70 := Int.fdiv_eq_ediv b (by decide)
  refine ⟨?_, by rw [he]; omega, by rw [he]; omega, by decide, by decide⟩
  rw [he]
  exact_mod_cast (Rat.floor_intCast_div_natCast b 70).symm

/-- C1 counterexample: a distribution violating the side rule for side X and
for side Y (entries 120 and 100 with active id 110 on position range
[100, 139]) is not rejected: the call hands off to the settlement engine with
the distribution unchanged, returning no local error. -/
theorem add_one_side_forwards_side_rule_violation :
    spec_side_rule_X 110 add_ctx.position.data.upper_bin_id [⟨120, 1⟩, ⟨100, 1⟩] = false ∧
    spec_side_rule_Y 110 add_ctx.position.data.lower_bin_id [⟨120, 1⟩, ⟨100, 1⟩] = false ∧
    handle_dlmm_add_liquidity_one_side add_ctx 1000 110 5 [⟨120, 1⟩, ⟨100, 1⟩] =
      .ok { program := dlmm_ID
            accounts := AddLiquidityOneSide.of add_ctx
            params := { amount := 1000, active_id := 110, max_active_bin_slippage := 5
                        bin_liquidity_dist := [⟨120, 1⟩, ⟨100, 1⟩] } } :=
  ⟨rfl, rfl, rfl⟩

/-- C1 (amended): single-sided deposit performs no local side-rule
validation: even when the distribution violates the side rule — the X rule or
the Y rule — the call is handed off to the settlement engine with the
distribution unchanged and no local error; side enforcement belongs to the
DLMM program. -/
theorem add_one_side_no_local_side_validation
    (ctx : DlmmAddLiquidityOneSide) (amount : Nat)
    (active_id max_active_bin_slippage : Int)
    (dist : List BinLiquidityDistributionByWeight)
    (h : ctx.try_accounts = .ok ())
    (_h_side : spec_side_rule_X active_id ctx.position.data.upper_bin_id dist = false ∨
      spec_side_rule_Y active_id ctx.position.data.lower_bin_id dist = false) :
    handle_dlmm_add_liquidity_one_side ctx amount active_id
        max_active_bin_slippage dist =
      .ok { program := ctx.dlmm_program.key
            accounts := AddLiquidityOneSide.of ctx
            params := { amount := amount, active_id := active_id
                        max_active_bin_slippage := max_active_bin_slippage
                        bin_liquidity_dist := dist } } :=
  handle_add_of_try_ok ctx amount active_id max_active_bin_slippage dist h

/-- C1 witness: the amended theorem applied at two concrete calls — a
distribution violating both side rules, and a distribution [(120, 1)] with
active id 110 that satisfies the X rule but violates the Y rule. -/
theorem add_one_side_no_local_side_validation_witness :
    handle_dlmm_add_liquidity_one_side add_ctx 1000 110 5 [⟨120, 1⟩, ⟨100, 1⟩] =
      .ok { program := add_ctx.dlmm_program.key
            accounts := AddLiquidityOneSide.of add_ctx
            params := { amount := 1000, active_id := 110, max_active_bin_slippage := 5
                        bin_liquidity_dist := [⟨120, 1⟩, ⟨100, 1⟩] } } ∧
    handle_dlmm_add_liquidity_one_side add_ctx 1000 110 5 [⟨120, 1⟩] =
      .ok { program := add_ctx.dlmm_program.key
            accounts := AddLiquidityOneSide.of add_ctx
            params := { amount := 1000, active_id := 110, max_active_bin_slippage := 5
                        bin_liquidity_dist := [⟨120, 1⟩] } } :=
  ⟨add_one_side_no_local_side_validation add_ctx 1000 110 5 [⟨120, 1⟩, ⟨100, 1⟩]
     rfl (Or.inl rfl),
   add_one_side_no_local_side_validation add_ctx 1000 110 5 [⟨120, 1⟩]
     rfl (Or.inr rfl)⟩

/-- C2 counterexample: a reduction table violating all three rules at once —
bps 10001 > 10000, duplicate bin 105, and bin 500 outside the position range
[100, 139] — is not rejected: the call hands off with the table unchanged and
no local error. -/
theorem remove_liquidity_forwards_invalid_reduction :
    spec_reduction_ok remove_ctx.position.data.lower_bin_id
        remove_ctx.position.data.upper_bin_id
        [⟨105, 10001⟩, ⟨105, 5000⟩, ⟨500, 3⟩] = false ∧
    handle_dlmm_remove_liquidity remove_ctx [⟨105, 10001⟩, ⟨105, 5000⟩, ⟨500, 3⟩] =
      .ok { program := dlmm_ID
            accounts := RemoveLiquidity.of remove_ctx
            params := [⟨105, 10001⟩, ⟨105, 5000⟩, ⟨500, 3⟩] } :=
  ⟨rfl, rfl⟩

/-- C2 (amended): partial withdrawal performs no local validation of the
reduction table: even a table violating the bps range, the bin range and the
no-duplicate rule is handed off to the settlement engine unchanged, with no
local BpsOutOfRange / BinOutOfRange / DuplicateBin error. -/
theorem remove_liquidity_no_local_table_validation
    (ctx : DlmmRemoveLiquidity) (removal : List BinLiquidityReduction)
    (h : ctx.try_accounts = .ok ())
    (_hR : spec_reduction_ok ctx.position.data.lower_bin_id
        ctx.position.data.upper_bin_id removal = false) :
    handle_dlmm_remove_liquidity ctx removal =
      .ok { program := ctx.dlmm_program.key
            accounts := RemoveLiquidity.of ctx
            params := removal } :=
  handle_remove_of_try_ok ctx removal h

/-- C2 witness: the amended theorem applied at the concrete invalid table. -/
theorem remove_liquidity_no_local_table_validation_witness :
    handle_dlmm_remove_liquidity remove_ctx [⟨105, 10001⟩, ⟨105, 5000⟩, ⟨500, 3⟩] =
      .ok { program := remove_ctx.dlmm_program.key
            accounts := RemoveLiquidity.of remove_ctx
            params := [⟨105, 10001⟩, ⟨105, 5000⟩, ⟨500, 3⟩] } :=
  remove_liquidity_no_local_table_validation remove_ctx
    [⟨105, 10001⟩, ⟨105, 5000⟩, ⟨500, 3⟩] rfl rfl

/-- C3 counterexample: the empty distribution and a distribution with a
duplicated bin id are both accepted by this layer and handed off unchanged —
no EmptyDistribution and no DuplicateBin error is produced locally. -/
theorem add_one_side_forwards_empty_and_duplicate :
    spec_dist_well_formed [] = false ∧
    spec_dist_well_formed [⟨120, 1⟩, ⟨120, 2⟩] = false ∧
    handle_dlmm_add_liquidity_one_side add_ctx 1000 110 5 [] =
      .ok { program := dlmm_ID
            accounts := AddLiquidityOneSide.of add_ctx
            params := { amount := 1000, active_id := 110, max_active_bin_slippage := 5
                        bin_liquidity_dist := [] } } ∧
    handle_dlmm_add_liquidity_one_side add_ctx 1000 110 5 [⟨120, 1⟩, ⟨120, 2⟩] =
      .ok { program := dlmm_ID
            accounts := AddLiquidityOneSide.of add_ctx
            params := { amount := 1000, active_id := 110, max_active_bin_slippage := 5
                        bin_liquidity_dist := [⟨120, 1⟩, ⟨120, 2⟩] } } :=
  ⟨rfl, rfl, rfl, rfl⟩

/-- C3 (amended): this layer rejects neither an empty distribution nor one
with duplicate bin ids: both are handed off to the settlement engine
unchanged whenever the account checks pass. -/
theorem add_one_side_no_empty_duplicate_check
    (ctx : DlmmAddLiquidityOneSide) (amount : Nat)
    (active_id max_active_bin_slippage : Int) (d : Int) (w w2 : Nat)
    (h : ctx.try_accounts = .ok ()) :
    handle_dlmm_add_liquidity_one_side ctx amount active_id
        max_active_bin_slippage [] =
      .ok { program := ctx.dlmm_program.key
            accounts := AddLiquidityOneSide.of ctx
            params := { amount := amount, active_id := active_id
                        max_active_bin_slippage := max_active_bin_slippage
                        bin_liquidity_dist := [] } } ∧
    handle_dlmm_add_liquidity_one_side ctx amount active_id
        max_active_bin_slippage [⟨d, w⟩, ⟨d, w2⟩] =
      .ok { program := ctx.dlmm_program.key
            accounts := AddLiquidityOneSide.of ctx
            params := { amount := amount, active_id := active_id
                        max_active_bin_slippage := max_active_bin_slippage
                        bin_liquidity_dist := [⟨d, w⟩, ⟨d, w2⟩] } } :=
  ⟨handle_add_of_try_ok ctx amount active_id max_active_bin_slippage [] h,
   handle_add_of_try_ok ctx amount active_id max_active_bin_slippage
     [⟨d, w⟩, ⟨d, w2⟩] h⟩

/-- C3 witness: the amended theorem applied at the concrete account set. -/
theorem add_one_side_no_empty_duplicate_check_witness :
    handle_dlmm_add_liquidity_one_side add_ctx 1000 110 5 [] =
      .ok { program := add_ctx.dlmm_program.key
            accounts := AddLiquidityOneSide.of add_ctx
            params := { amount := 1000, active_id := 110, max_active_bin_slippage := 5
                        bin_liquidity_dist := [] } } ∧
    handle_dlmm_add_liquidity_one_side add_ctx 1000 110 5 [⟨120, 1⟩, ⟨120, 2⟩] =
      .ok { program := add_ctx.dlmm_program.key
            accounts := AddLiquidityOneSide.of add_ctx
            params := { amount := 1000, active_id := 110, max_active_bin_slippage := 5
                        bin_liquidity_dist := [⟨120, 1⟩, ⟨120, 2⟩] } } :=
  add_one_side_no_empty_duplicate_check add_ctx 1000 110 5 120 1 2 rfl

/-- C4 counterexample: a negative slippage bound (-1) is not rejected: the
call is handed off with max_active_bin_slippage = -1 unchanged, and no local
InvalidSlippageBound error is produced. -/
theorem add_one_side_forwards_negative_slippage :
    (-1 : Int) < 0 ∧
    handle_dlmm_add_liquidity_one_side add_ctx 1000 110 (-1) [⟨111, 1⟩] =
      .ok { program := dlmm_ID
            accounts := AddLiquidityOneSide.of add_ctx
            params := { amount := 1000, active_id := 110, max_active_bin_slippage := -1
                        bin_liquidity_dist := [⟨111, 1⟩] } } :=
  ⟨by decide, rfl⟩

/-- C4 (amended): this layer makes no non-negativity assertion on
max_active_bin_slippage: any negative bound is forwarded unchanged to the
settlement engine with no local error. -/
theorem add_one_side_no_slippage_sign_check
    (ctx : DlmmAddLiquidityOneSide) (amount : Nat)
    (active_id max_active_bin_slippage : Int)
    (dist : List BinLiquidityDistributionByWeight)
    (_hneg : max_active_bin_slippage < 0)
    (h : ctx.try_accounts = .ok ()) :
    handle_dlmm_add_liquidity_one_side ctx amount active_id
        max_active_bin_slippage dist =
      .ok { program := ctx.dlmm_program.key
            accounts := AddLiquidityOneSide.of ctx
            params := { amount := amount, active_id := active_id
                        max_active_bin_slippage := max_active_bin_slippage
                        bin_liquidity_dist := dist } } :=
  handle_add_of_try_ok ctx amount active_id max_active_bin_slippage dist h

/-- C4 witness: the amended theorem applied at slippage bound -1. -/
theorem add_one_side_no_slippage_sign_check_witness :
    handle_dlmm_add_liquidity_one_side add_ctx 1000 110 (-1) [⟨111, 1⟩] =
      .ok { program := add_ctx.dlmm_program.key
            accounts := AddLiquidityOneSide.of add_ctx
            params := { amount := 1000, active_id := 110, max_active_bin_slippage := -1
                        bin_liquidity_dist := [⟨111, 1⟩] } } :=
  add_one_side_no_slippage_sign_check add_ctx 1000 110 (-1) [⟨111, 1⟩]
    (by decide) rfl

/-- C6 counterexample: a remove_all call whose position data names pool 99
while the supplied lb_pair account is key 2 — the cross-reference fails — is
not rejected by this layer: it hands off to the settlement engine. -/
theorem remove_all_forwards_mismatched_lb_pair :
    remove_all_ctx_mismatched.position.data.lb_pair ≠
      remove_all_ctx_mismatched.lb_pair.key ∧
    handle_dlmm_remove_all_liquidity remove_all_ctx_mismatched =
      .ok { program := dlmm_ID
            accounts := RemoveAllLiquidity.of remove_all_ctx_mismatched
            params := () } :=
  ⟨by decide, rfl⟩

/-- C6 (amended): remove_all at this layer is unconditional apart from the
derived account checks (writability, sender signature, dlmm_program address):
it requires no bin-level table and performs no position/lb_pair
cross-reference check — replacing the position data by any value, matching or
not, leaves the hand-off identical; the cross-reference is enforced by the
settlement engine. -/
theorem remove_all_unconditional_hand_off
    (ctx : DlmmRemoveAllLiquidity) (d : PositionData)
    (h : ctx.try_accounts = .ok ()) :
    handle_dlmm_remove_all_liquidity ctx =
      .ok { program := ctx.dlmm_program.key
            accounts := RemoveAllLiquidity.of ctx
            params := () } ∧
    handle_dlmm_remove_all_liquidity (ctx.with_position_data d) =
      .ok { program := ctx.dlmm_program.key
            accounts := RemoveAllLiquidity.of ctx
            params := () } :=
  ⟨handle_remove_all_of_try_ok ctx h,
   handle_remove_all_of_try_ok (ctx.with_position_data d) h⟩

/-- C6 witness: the amended theorem applied at the mismatched account set. -/
theorem remove_all_unconditional_hand_off_witness :
    handle_dlmm_remove_all_liquidity remove_all_ctx_mismatched =
      .ok { program := remove_all_ctx_mismatched.dlmm_program.key
            accounts := RemoveAllLiquidity.of remove_all_ctx_mismatched
            params := () } ∧
    handle_dlmm_remove_all_liquidity
        (remove_all_ctx_mismatched.with_position_data position_100_139) =
      .ok { program := remove_all_ctx_mismatched.dlmm_program.key
            accounts := RemoveAllLiquidity.of remove_all_ctx_mismatched
            params := () } :=
  remove_all_unconditional_hand_off remove_all_ctx_mismatched position_100_139 rfl

/-- C7 counterexample: a close call whose position data names pool 99 while
the supplied lb_pair account is key 2 — the identity cross-reference fails —
is not rejected by this layer: it hands off to the settlement engine. -/
theorem close_position_forwards_mismatched_identity :
    close_ctx_mismatched.position.data.lb_pair ≠
      close_ctx_mismatched.lb_pair.key ∧
    handle_dlmm_close_position close_ctx_mismatched =
      .ok { program := dlmm_ID
            accounts := ClosePosition.of close_ctx_mismatched
            params := () } :=
  ⟨by decide, rfl⟩

/-- C7 (amended): close performs no local position-identity check: whenever
the derived account checks pass it hands off, and replacing the position data
by any value — any claimed pool identity, any liquidity state — leaves the
hand-off identical; identity and emptiness are enforced by the settlement
engine. -/
theorem close_position_no_local_identity_check
    (ctx : DlmmClosePosition) (d : PositionData)
    (h : ctx.try_accounts = .ok ()) :
    handle_dlmm_close_position ctx =
      .ok { program := ctx.dlmm_program.key
            accounts := ClosePosition.of ctx
            params := () } ∧
    handle_dlmm_close_position (ctx.with_position_data d) =
      .ok { program := ctx.dlmm_program.key
            accounts := ClosePosition.of ctx
            params := () } :=
  ⟨handle_close_of_try_ok ctx h,
   handle_close_of_try_ok (ctx.with_position_data d) h⟩

/-- C7 witness: the amended theorem applied at the mismatched account set. -/
theorem close_position_no_local_identity_check_witness :
    handle_dlmm_close_position close_ctx_mismatched =
      .ok { program := close_ctx_mismatched.dlmm_program.key
            accounts := ClosePosition.of close_ctx_mismatched
            params := () } ∧
    handle_dlmm_close_position
        (close_ctx_mismatched.with_position_data position_100_139) =
      .ok { program := close_ctx_mismatched.dlmm_program.key
            accounts := ClosePosition.of close_ctx_mismatched
            params := () } :=
  close_position_no_local_identity_check close_ctx_mismatched position_100_139 rfl

/-- C8: remove_all validates identically regardless of the position's
liquidity state: two calls on account sets differing only in the per-bin
liquidity recorded in the position data — an Open position and an
already-empty one included — give the same result, accept or reject. -/
theorem remove_all_decision_ignores_liquidity
    (ctx : DlmmRemoveAllLiquidity) (L1 L2 : List (Int × Nat)) :
    handle_dlmm_remove_all_liquidity (ctx.with_liquidity L1) =
      handle_dlmm_remove_all_liquidity (ctx.with_liquidity L2) := rfl

/-- C9: the parameters handed off to the settlement engine are exactly the
caller's parameters unchanged: the single-sided deposit hand-off carries
precisely (amount, active_id, max_active_bin_slippage, bin_liquidity_dist)
as supplied, and the selective-withdrawal hand-off carries precisely the
caller's bin_liquidity_removal list, with no entry filtered, reordered,
clamped, or rewritten. -/
theorem hand_off_params_exactly_callers :
    (∀ (ctx : DlmmAddLiquidityOneSide) (amount : Nat)
        (active_id max_active_bin_slippage : Int)
        (dist : List BinLiquidityDistributionByWeight),
      ctx.try_accounts = .ok () →
        handle_dlmm_add_liquidity_one_side ctx amount active_id
            max_active_bin_slippage dist =
          .ok { program := ctx.dlmm_program.key
                accounts := AddLiquidityOneSide.of ctx
                params := { amount := amount, active_id := active_id
                            max_active_bin_slippage := max_active_bin_slippage
                            bin_liquidity_dist := dist } }) ∧
    (∀ (ctx : DlmmRemoveLiquidity) (removal : List BinLiquidityReduction),
      ctx.try_accounts = .ok () →
        handle_dlmm_remove_liquidity ctx removal =
          .ok { program := ctx.dlmm_program.key
                accounts := RemoveLiquidity.of ctx
                params := removal }) :=
  ⟨fun ctx amount active_id max_active_bin_slippage dist h =>
     handle_add_of_try_ok ctx amount active_id max_active_bin_slippage dist h,
   fun ctx removal h => handle_remove_of_try_ok ctx removal h⟩

/-- C9 witness: both hand-offs evaluated at concrete calls. -/
theorem hand_off_params_exactly_callers_witness :
    handle_dlmm_add_liquidity_one_side add_ctx 777 110 3 [⟨111, 2⟩] =
      .ok { program := add_ctx.dlmm_program.key
            accounts := AddLiquidityOneSide.of add_ctx
            params := { amount := 777, active_id := 110, max_active_bin_slippage := 3
                        bin_liquidity_dist := [⟨111, 2⟩] } } ∧
    handle_dlmm_remove_liquidity remove_ctx [⟨105, 10000⟩] =
      .ok { program := remove_ctx.dlmm_program.key
            accounts := RemoveLiquidity.of remove_ctx
            params := [⟨105, 10000⟩] } :=
  ⟨hand_off_params_exactly_callers.1 add_ctx 777 110 3 [⟨111, 2⟩] rfl,
   hand_off_params_exactly_callers.2 remove_ctx [⟨105, 10000⟩] rfl⟩

/-- C10: each of the four lifecycle operations accepts exactly when its flag
checks (writability of the mut accounts, sender signature) pass and the
supplied dlmm_program account's address equals the constant dlmm::ID; the
address constraint is the only account-identity comparison in the local
acceptance condition. -/
theorem dlmm_address_only_local_identity_check :
    (∀ (a : DlmmAddLiquidityOneSide) (amount : Nat)
        (active_id max_active_bin_slippage : Int)
        (dist : List BinLiquidityDistributionByWeight),
      (∃ r, handle_dlmm_add_liquidity_one_side a amount active_id
          max_active_bin_slippage dist = .ok r) ↔
        (add_flags_ok a = true ∧ a.dlmm_program.key = dlmm_ID)) ∧
    (∀ (a : DlmmRemoveLiquidity) (removal : List BinLiquidityReduction),
      (∃ r, handle_dlmm_remove_liquidity a removal = .ok r) ↔
        (remove_flags_ok a = true ∧ a.dlmm_program.key = dlmm_ID)) ∧
    (∀ a : DlmmRemoveAllLiquidity,
      (∃ r, handle_dlmm_remove_all_liquidity a = .ok r) ↔
        (remove_all_flags_ok a = true ∧ a.dlmm_program.key = dlmm_ID)) ∧
    (∀ a : DlmmClosePosition,
      (∃ r, handle_dlmm_close_position a = .ok r) ↔
        (close_flags_ok a = true ∧ a.dlmm_program.key = dlmm_ID)) :=
  ⟨fun a amount active_id max_active_bin_slippage dist =>
     (handle_add_ok_iff_try a amount active_id max_active_bin_slippage dist).trans
       (add_try_accounts_ok_iff a),
   fun a removal =>
     (handle_remove_ok_iff_try a removal).trans (remove_try_accounts_ok_iff a),
   fun a =>
     (handle_remove_all_ok_iff_try a).trans (remove_all_try_accounts_ok_iff a),
   fun a => (handle_close_ok_iff_try a).trans (close_try_accounts_ok_iff a)⟩
